import Mathlib

/-!
Shallow embedding of the food-review-app client flows.

Source files:
- src/mobile/app/reviews/create.tsx : review submission screen (handleSubmit)
- src/unnamed/part_000 : friends feed screen (fetchFriendsReviews, onRefresh, formatDate)

External collaborators (the Supabase auth session provider, the HTTP fetch and
the JSON codec of the platform) are modelled as explicit inputs: a submission
run is a pure function of the draft state and of an environment record that
says what the session lookup returned and what the network returned.
JSON parsing of a response body is modelled by a field of the response record
describing the outcome of JSON.parse on the body text: either failure (the
parse throws) or success carrying the optional string value of the message
property of the parsed value.
-/

namespace FoodReview

/-! ### Submission flow (create.tsx) -/

/-- Models the JavaScript `String.prototype.trim` builtin: strip leading and
trailing whitespace. Written over the character list of the string so it is
kernel computable. -/
def trimString (s : String) : String :=
  String.mk ((s.data.dropWhile Char.isWhitespace).reverse.dropWhile Char.isWhitespace).reverse

/-- Embeds `dishes.filter(d => d.trim() !== '')` from handleSubmit (create.tsx line 42). -/
def filledDishes (dishes : List String) : List String :=
  dishes.filter (fun d => trimString d ≠ "")

/-- Auth session, of which the code uses only the access token. -/
structure Session where
  access_token : String
deriving DecidableEq

/-- Result of `supabase.auth.getSession()`: a possible session and a possible error. -/
structure SessionLookup where
  session : Option Session
  error : Bool

/-- Outcome of JSON-parsing a body text: `failure` when JSON.parse throws,
`success msg` when it yields a value whose string message property is `msg`
(`none` when the parsed value carries no message field). -/
inductive JsonParseResult where
  | failure
  | success (message : Option String)
deriving DecidableEq

/-- HTTP response as the code observes it. `bodyJson` is the outcome of JSON
parsing of `bodyText`; `jsonErrMsg` is the message of the exception thrown by
`response.json()` when that parse fails. -/
structure HttpResponse where
  ok : Bool
  status : Nat
  statusText : String
  bodyText : String
  bodyJson : JsonParseResult
  jsonErrMsg : String

/-- Outcome of the `fetch` call: a thrown transport error or a response. -/
inductive FetchOutcome where
  | transportError (msg : String)
  | response (r : HttpResponse)

/-- Environment of one submission run: what the session lookup and the fetch return. -/
structure SubmitEnv where
  sessionLookup : SessionLookup
  fetchOutcome : FetchOutcome

/-- Restaurant reference passed in through navigation params (create.tsx lines 17-23). -/
structure RestaurantRef where
  provider : String
  providerId : String
  name : String
  address : String
  lat : Option Float
  lng : Option Float

/-- Client-local draft state of the editor screen (create.tsx lines 25-27). -/
structure DraftState where
  dishes : List String
  rating : Nat
  isSubmitting : Bool

/-- Wire payload `reviewData` built by handleSubmit (create.tsx lines 65-75). -/
structure Payload where
  provider : String
  providerId : String
  name : String
  address : String
  lat : Option Float
  lng : Option Float
  rating : Nat
  text : String
  dishes : List String

/-- One `Alert.alert(title, message)` call. -/
structure AlertCall where
  title : String
  message : String
deriving DecidableEq

/-- Classification of how a submission run ended, following the error taxonomy
of the specification. Each constructor corresponds to one exit path of
handleSubmit. -/
inductive SubmitOutcome where
  | emptyDishList
  | noRating
  | notAuthenticated
  | serverRejected (msg : String)
  | transportFailure (msg : String)
  | success
deriving DecidableEq

/-- Observable result of one submission run: final draft state, alert calls,
how many session lookups ran, the POSTed payload when the fetch was issued,
how many go-back navigation signals were triggered, and the outcome class. -/
structure SubmitResult where
  state : DraftState
  alerts : List AlertCall
  sessionLookups : Nat
  postedPayload : Option Payload
  goBackSignals : Nat
  outcome : SubmitOutcome

/-- Generic fallback message: the template literal
`Server error: status statusText` (create.tsx line 98). -/
def genericServerError (status : Nat) (statusText : String) : String :=
  "Server error: " ++ toString status ++ " " ++ statusText

/-- Message thrown for a non-ok response (create.tsx lines 88-99): read the body
text, try JSON.parse, fall back to `\x7bmessage: errorText\x7d` when the parse
throws, then surface `errorData.message || generic`. An absent or empty message
property is falsy in the source, hence the generic fallback in both cases. -/
def serverErrorMessage (r : HttpResponse) : String :=
  let errorMsg : Option String :=
    match r.bodyJson with
    | .success msg => msg
    | .failure => some r.bodyText
  match errorMsg with
  | some m => if m = "" then genericServerError r.status r.statusText else m
  | none => genericServerError r.status r.statusText

/-- Embeds handleSubmit (create.tsx lines 41-116) as a pure function of the
draft state and the environment. Each branch mirrors one control path of the
source; the `finally` clause is reflected by `isSubmitting := false` on every
path that entered the try block. -/
def handleSubmit (ref : RestaurantRef) (st : DraftState) (env : SubmitEnv) : SubmitResult :=
  let filled := filledDishes st.dishes
  if filled.length = 0 then
    { state := st
      alerts := [⟨"Missing Info", "Please enter at least one dish name"⟩]
      sessionLookups := 0
      postedPayload := none
      goBackSignals := 0
      outcome := .emptyDishList }
  else if st.rating = 0 then
    { state := st
      alerts := [⟨"Missing Info", "Please rate your experience"⟩]
      sessionLookups := 0
      postedPayload := none
      goBackSignals := 0
      outcome := .noRating }
  else
    let lookup := env.sessionLookup
    if lookup.error || lookup.session.isNone then
      { state := { st with isSubmitting := false }
        alerts := [⟨"Error", "You must be logged in to submit a review"⟩]
        sessionLookups := 1
        postedPayload := none
        goBackSignals := 0
        outcome := .notAuthenticated }
    else
      let payload : Payload :=
        { provider := ref.provider
          providerId := ref.providerId
          name := ref.name
          address := ref.address
          lat := ref.lat
          lng := ref.lng
          rating := st.rating
          text := ""
          dishes := filled }
      match env.fetchOutcome with
      | .transportError msg =>
          { state := { st with isSubmitting := false }
            alerts := [⟨"Error", msg⟩]
            sessionLookups := 1
            postedPayload := some payload
            goBackSignals := 0
            outcome := .transportFailure msg }
      | .response r =>
          if r.ok then
            match r.bodyJson with
            | .failure =>
                { state := { st with isSubmitting := false }
                  alerts := [⟨"Error", r.jsonErrMsg⟩]
                  sessionLookups := 1
                  postedPayload := some payload
                  goBackSignals := 0
                  outcome := .transportFailure r.jsonErrMsg }
            | .success _ =>
                { state := { st with isSubmitting := false }
                  alerts := [⟨"Success", "Your review has been submitted!"⟩]
                  sessionLookups := 1
                  postedPayload := some payload
                  goBackSignals := 1
                  outcome := .success }
          else
            { state := { st with isSubmitting := false }
              alerts := [⟨"Error", serverErrorMessage r⟩]
              sessionLookups := 1
              postedPayload := some payload
              goBackSignals := 0
              outcome := .serverRejected (serverErrorMessage r) }

/-! ### Feed flow (src/unnamed/part_000) -/

/-- Server-owned feed review record (interface Review, part_000 lines 17-30). -/
structure Review where
  id : String
  userId : String
  userName : String
  userAvatar : Option String
  restaurantId : String
  restaurantName : String
  restaurantAddress : String
  rating : Nat
  text : String
  photoUrls : Option (List String)
  items : Option (List String)
  createdAt : String
deriving DecidableEq

/-- Local state of the feed screen (part_000 lines 33-35). -/
structure FeedState where
  reviews : List Review
  loading : Bool
  refreshing : Bool
deriving DecidableEq

/-- Outcome of the feed GET: a thrown transport error, or a response with its
ok flag and the outcome of `res.json()` (`none` when that parse throws). -/
inductive FeedFetchOutcome where
  | transportError (msg : String)
  | response (ok : Bool) (bodyJson : Option (List Review))

/-- Environment of one feed load: the optional access token the session lookup
yields and what the fetch returns. -/
structure FeedEnv where
  token : Option String
  fetch : FeedFetchOutcome

/-- Observable result of one feed load: final screen state, alerts surfaced to
the user (none on any path of this flow), and console.error diagnostics. -/
structure FeedResult where
  state : FeedState
  surfacedAlerts : List AlertCall
  loggedErrors : Nat

/-- Embeds fetchFriendsReviews (part_000 lines 41-65). The `finally` clause
clears both the loading and the refreshing flag on every path. A non-ok
response is silently ignored (the source has no else branch on `res.ok`);
a transport error or a body-parse error lands in the catch, which only logs. -/
def fetchFriendsReviews (st : FeedState) (env : FeedEnv) : FeedResult :=
  match env.fetch with
  | .transportError _ =>
      { state := { st with loading := false, refreshing := false }
        surfacedAlerts := []
        loggedErrors := 1 }
  | .response ok bodyJson =>
      if ok then
        match bodyJson with
        | some feedData =>
            { state := { reviews := feedData, loading := false, refreshing := false }
              surfacedAlerts := []
              loggedErrors := 0 }
        | none =>
            { state := { st with loading := false, refreshing := false }
              surfacedAlerts := []
              loggedErrors := 1 }
      else
        { state := { st with loading := false, refreshing := false }
          surfacedAlerts := []
          loggedErrors := 0 }

/-- Embeds onRefresh (part_000 lines 67-70): set the refreshing flag, then run
the same fetch. -/
def onRefresh (st : FeedState) (env : FeedEnv) : FeedResult :=
  fetchFriendsReviews { st with refreshing := true } env

/-- Milliseconds per day, the constant 1000 * 60 * 60 * 24 of formatDate. -/
def msPerDay : Nat := 1000 * 60 * 60 * 24

/-- Elapsed days, rounded up: `Math.ceil(Math.abs(now - date) / msPerDay)`
(part_000 lines 97-98), as ceiling division on the absolute difference. -/
def diffDays (nowMs dateMs : Int) : Nat :=
  ((nowMs - dateMs).natAbs + (msPerDay - 1)) / msPerDay

/-- Embeds formatDate (part_000 lines 94-104). `toLocaleDateString` is locale
dependent, so it is passed in as the function `locale` of the date value. -/
def formatDate (locale : Int → String) (nowMs dateMs : Int) : String :=
  let d := diffDays nowMs dateMs
  if d = 0 then "Today"
  else if d = 1 then "Yesterday"
  else if d < 7 then toString d ++ " days ago"
  else locale dateMs

/-! ### Sample values used by concrete witnesses -/

/-- Sample restaurant reference for concrete runs. -/
def sampleRef : RestaurantRef :=
  { provider := ("yelp")
    providerId := ("r1")
    name := ("Chez Test")
    address := ("1 Main St")
    lat := none
    lng := none }

/-- Sample successful session lookup. -/
def sampleSession : SessionLookup :=
  { session := some ⟨("tok")⟩, error := false }

/-- Sample ok response whose body parses as JSON. -/
def okJsonResponse : HttpResponse :=
  { ok := true
    status := 200
    statusText := ("OK")
    bodyText := ("\x7b\x7d")
    bodyJson := .success none
    jsonErrMsg := ("") }

/-- Sample environment where the session lookup and the POST both succeed. -/
def successEnv : SubmitEnv :=
  { sessionLookup := sampleSession, fetchOutcome := .response okJsonResponse }

/-- Sample draft with one blank slot among valid dishes and a chosen rating. -/
def sampleDraft : DraftState :=
  { dishes := ["Fries", "", "  Burger  "], rating := 4, isSubmitting := false }

/-! ### Claims -/

/-- Claim C1: the dishes field of the payload POSTed by submit equals the input
dish list with exactly the entries whose trimmed form is empty removed: it is
the filter keeping entries with a non-empty trimmed form, a sublist of the
input (original texts, original relative order), every kept entry is non-blank,
the filtering is idempotent, and on the concrete input
["Fries", "", "  Burger  "] it yields ["Fries", "  Burger  "]. -/
theorem payload_dishes_filter_correct :
    (∀ ref st env p, (handleSubmit ref st env).postedPayload = some p →
      p.dishes = filledDishes st.dishes)
    ∧ (∀ l, (filledDishes l).Sublist l)
    ∧ (∀ l d, d ∈ filledDishes l → trimString d ≠ "")
    ∧ (∀ l, filledDishes (filledDishes l) = filledDishes l)
    ∧ filledDishes ["Fries", "", "  Burger  "] = ["Fries", "  Burger  "] := by
  refine ⟨?_, ?_, ?_, ?_, ?_⟩
  · intro ref st env p h
    unfold handleSubmit at h
    dsimp only at h
    repeat' split at h
    all_goals dsimp only at h
    all_goals cases h
    all_goals rfl
  · intro l
    exact List.filter_sublist l
  · intro l d hd
    have h := List.mem_filter.mp hd
    simpa using h.2
  · intro l
    unfold filledDishes
    simp [List.filter_filter]
  · decide

/-- Sample payload: what the concrete success run POSTs. -/
def samplePayload : Payload :=
  { provider := ("yelp")
    providerId := ("r1")
    name := ("Chez Test")
    address := ("1 Main St")
    lat := none
    lng := none
    rating := 4
    text := ("")
    dishes := ["Fries", "  Burger  "] }

/-- Claim C1 witness: a concrete run through the POST path, showing the posted
payload carries exactly the filtered dish list. -/
theorem payload_dishes_filter_correct_witness :
    (handleSubmit sampleRef sampleDraft successEnv).postedPayload = some samplePayload
    ∧ samplePayload.dishes = filledDishes sampleDraft.dishes :=
  ⟨by rfl, payload_dishes_filter_correct.1 sampleRef sampleDraft successEnv samplePayload (by rfl)⟩

/-- Claim C2: with every dish slot blank or whitespace-only, submit fails with
EmptyDishList and attempts neither the session lookup nor the POST. -/
theorem submit_all_blank_fails_empty_dish_list
    (ref : RestaurantRef) (st : DraftState) (env : SubmitEnv)
    (hblank : ∀ d ∈ st.dishes, trimString d = "") :
    (handleSubmit ref st env).outcome = SubmitOutcome.emptyDishList
    ∧ (handleSubmit ref st env).sessionLookups = 0
    ∧ (handleSubmit ref st env).postedPayload = none := by
  have hfe : filledDishes st.dishes = [] := by
    unfold filledDishes
    rw [List.filter_eq_nil_iff]
    intro d hd
    simp [hblank d hd]
  unfold handleSubmit
  dsimp only
  rw [hfe]
  exact ⟨rfl, rfl, rfl⟩

/-- Sample draft whose dish slots are all blank. -/
def blankDraft : DraftState :=
  { dishes := ["", "  "], rating := 3, isSubmitting := false }

/-- Claim C2 witness: concrete all-blank draft. -/
theorem submit_all_blank_fails_empty_dish_list_witness :
    (∀ d ∈ blankDraft.dishes, trimString d = "")
    ∧ ((handleSubmit sampleRef blankDraft successEnv).outcome = SubmitOutcome.emptyDishList
      ∧ (handleSubmit sampleRef blankDraft successEnv).sessionLookups = 0
      ∧ (handleSubmit sampleRef blankDraft successEnv).postedPayload = none) :=
  ⟨by decide, submit_all_blank_fails_empty_dish_list sampleRef blankDraft successEnv (by decide)⟩

/-- Claim C3: with at least one non-blank dish but a zero rating, submit fails
with NoRating and attempts neither the session lookup nor the POST. -/
theorem submit_zero_rating_fails_no_rating
    (ref : RestaurantRef) (st : DraftState) (env : SubmitEnv)
    (d : String) (hdl : d ∈ st.dishes) (hdt : trimString d ≠ "")
    (hr : st.rating = 0) :
    (handleSubmit ref st env).outcome = SubmitOutcome.noRating
    ∧ (handleSubmit ref st env).sessionLookups = 0
    ∧ (handleSubmit ref st env).postedPayload = none := by
  have hmem : d ∈ filledDishes st.dishes := by
    unfold filledDishes
    rw [List.mem_filter]
    exact ⟨hdl, by simpa using hdt⟩
  have hne : ¬(filledDishes st.dishes).length = 0 := by
    intro h0
    rw [List.length_eq_zero] at h0
    rw [h0] at hmem
    cases hmem
  unfold handleSubmit
  dsimp only
  rw [if_neg hne, hr]
  exact ⟨rfl, rfl, rfl⟩

/-- Sample draft with a non-blank dish and no rating chosen yet. -/
def unratedDraft : DraftState :=
  { dishes := ["Fries", ""], rating := 0, isSubmitting := false }

/-- Claim C3 witness: concrete unrated draft with one non-blank dish. -/
theorem submit_zero_rating_fails_no_rating_witness :
    (("Fries") ∈ unratedDraft.dishes ∧ trimString ("Fries") ≠ "" ∧ unratedDraft.rating = 0)
    ∧ ((handleSubmit sampleRef unratedDraft successEnv).outcome = SubmitOutcome.noRating
      ∧ (handleSubmit sampleRef unratedDraft successEnv).sessionLookups = 0
      ∧ (handleSubmit sampleRef unratedDraft successEnv).postedPayload = none) :=
  ⟨⟨by decide, by decide, rfl⟩,
    submit_zero_rating_fails_no_rating sampleRef unratedDraft successEnv
      ("Fries") (by decide) (by decide) rfl⟩

/-- Claim C4: with valid dishes and a non-zero rating, if the session lookup
errors or yields no session, submit fails with NotAuthenticated, never issues
the POST, and returns to editing: the draft is intact and isSubmitting is
cleared. -/
theorem submit_no_session_fails_not_authenticated
    (ref : RestaurantRef) (st : DraftState) (env : SubmitEnv)
    (hdne : filledDishes st.dishes ≠ []) (hrne : st.rating ≠ 0)
    (hs : env.sessionLookup.error = true ∨ env.sessionLookup.session = none) :
    (handleSubmit ref st env).outcome = SubmitOutcome.notAuthenticated
    ∧ (handleSubmit ref st env).postedPayload = none
    ∧ (handleSubmit ref st env).state.dishes = st.dishes
    ∧ (handleSubmit ref st env).state.rating = st.rating
    ∧ (handleSubmit ref st env).state.isSubmitting = false := by
  have hlen : ¬(filledDishes st.dishes).length = 0 := by
    simpa [List.length_eq_zero] using hdne
  have hbool : (env.sessionLookup.error || env.sessionLookup.session.isNone) = true := by
    rcases hs with h | h
    · simp [h]
    · simp [h]
  unfold handleSubmit
  dsimp only
  rw [if_neg hlen, if_neg hrne, if_pos hbool]
  exact ⟨rfl, rfl, rfl, rfl, rfl⟩

/-- Sample failed session lookup: no session, no error object. -/
def noSessionLookup : SessionLookup :=
  { session := none, error := false }

/-- Sample environment where the session lookup yields no session. -/
def noSessionEnv : SubmitEnv :=
  { sessionLookup := noSessionLookup, fetchOutcome := .response okJsonResponse }

/-- Claim C4 witness: concrete valid draft with an absent session. -/
theorem submit_no_session_fails_not_authenticated_witness :
    (filledDishes sampleDraft.dishes ≠ [] ∧ sampleDraft.rating ≠ 0
      ∧ noSessionEnv.sessionLookup.session = none)
    ∧ ((handleSubmit sampleRef sampleDraft noSessionEnv).outcome = SubmitOutcome.notAuthenticated
      ∧ (handleSubmit sampleRef sampleDraft noSessionEnv).postedPayload = none
      ∧ (handleSubmit sampleRef sampleDraft noSessionEnv).state.dishes = sampleDraft.dishes
      ∧ (handleSubmit sampleRef sampleDraft noSessionEnv).state.rating = sampleDraft.rating
      ∧ (handleSubmit sampleRef sampleDraft noSessionEnv).state.isSubmitting = false) :=
  ⟨⟨by decide, by decide, rfl⟩,
    submit_no_session_fails_not_authenticated sampleRef sampleDraft noSessionEnv
      (by decide) (by decide) (Or.inr rfl)⟩

/-- Sample non-ok response with an empty body that JSON.parse rejects. -/
def emptyBodyResponse : HttpResponse :=
  { ok := false
    status := 500
    statusText := ("Internal Server Error")
    bodyText := ("")
    bodyJson := .failure
    jsonErrMsg := ("Unexpected end of JSON input") }

/-- Sample environment delivering the empty-body 500 response. -/
def emptyBodyEnv : SubmitEnv :=
  { sessionLookup := sampleSession, fetchOutcome := .response emptyBodyResponse }

/-- Claim C5 counterexample: a 500 response whose body is the empty string does
not parse as JSON, yet the surfaced message is the generic status-based one,
not the raw body text, contradicting the unconditional raw-body rule. -/
theorem server_rejected_raw_body_counterexample :
    emptyBodyResponse.ok = false
    ∧ emptyBodyResponse.bodyJson = JsonParseResult.failure
    ∧ (handleSubmit sampleRef sampleDraft emptyBodyEnv).outcome =
        SubmitOutcome.serverRejected ("Server error: 500 Internal Server Error")
    ∧ ("Server error: 500 Internal Server Error") ≠ emptyBodyResponse.bodyText :=
  ⟨rfl, rfl, rfl, by decide⟩

/-- Claim C5 (amended): for a non-success response the surfaced ServerRejected
message is: the message field when the body parses as JSON with a non-empty
message; the raw body text when the body does not parse as JSON and is
non-empty; and the generic status-based message otherwise, including the case
of an unparseable empty body. -/
theorem server_rejected_message_rule
    (ref : RestaurantRef) (st : DraftState) (env : SubmitEnv) (r : HttpResponse)
    (hres : env.fetchOutcome = FetchOutcome.response r) (hok : r.ok = false)
    (hdne : filledDishes st.dishes ≠ []) (hrne : st.rating ≠ 0)
    (herr : env.sessionLookup.error = false) (hsess : env.sessionLookup.session ≠ none) :
    (handleSubmit ref st env).outcome = SubmitOutcome.serverRejected (serverErrorMessage r)
    ∧ (∀ m, r.bodyJson = JsonParseResult.success (some m) → m ≠ "" →
        serverErrorMessage r = m)
    ∧ (r.bodyJson = JsonParseResult.failure → r.bodyText ≠ "" →
        serverErrorMessage r = r.bodyText)
    ∧ (r.bodyJson = JsonParseResult.success none →
        serverErrorMessage r = genericServerError r.status r.statusText)
    ∧ (r.bodyJson = JsonParseResult.success (some ("")) →
        serverErrorMessage r = genericServerError r.status r.statusText)
    ∧ (r.bodyJson = JsonParseResult.failure → r.bodyText = "" →
        serverErrorMessage r = genericServerError r.status r.statusText) := by
  have hlen : ¬(filledDishes st.dishes).length = 0 := by
    simpa [List.length_eq_zero] using hdne
  have hbool : ¬(env.sessionLookup.error || env.sessionLookup.session.isNone) = true := by
    simp [herr, Option.isNone_iff_eq_none, hsess]
  have hnok : ¬r.ok = true := by
    simp [hok]
  refine ⟨?_, ?_, ?_, ?_, ?_, ?_⟩
  · unfold handleSubmit
    dsimp only
    rw [if_neg hlen, if_neg hrne, if_neg hbool, hres]
    dsimp only
    rw [if_neg hnok]
  · intro m hjson hm
    unfold serverErrorMessage
    rw [hjson]
    dsimp only
    rw [if_neg hm]
  · intro hjson hbody
    unfold serverErrorMessage
    rw [hjson]
    dsimp only
    rw [if_neg hbody]
  · intro hjson
    unfold serverErrorMessage
    rw [hjson]
  · intro hjson
    unfold serverErrorMessage
    rw [hjson]
    dsimp only
    rw [if_pos rfl]
  · intro hjson hbody
    unfold serverErrorMessage
    rw [hjson]
    dsimp only
    rw [if_pos hbody]

/-- Sample 400 response whose JSON body carries a duplicate-review message. -/
def duplicateResponse : HttpResponse :=
  { ok := false
    status := 400
    statusText := ("Bad Request")
    bodyText := ("\x7b\"message\":\"Duplicate review\"\x7d")
    bodyJson := .success (some ("Duplicate review"))
    jsonErrMsg := ("unused") }

/-- Sample environment delivering the duplicate-review 400 response. -/
def duplicateEnv : SubmitEnv :=
  { sessionLookup := sampleSession, fetchOutcome := .response duplicateResponse }

/-- Sample 500 response with a plain-text non-JSON body. -/
def plainTextResponse : HttpResponse :=
  { ok := false
    status := 500
    statusText := ("Internal Server Error")
    bodyText := ("Internal error")
    bodyJson := .failure
    jsonErrMsg := ("Unexpected token I") }

/-- Sample environment delivering the plain-text 500 response. -/
def plainTextEnv : SubmitEnv :=
  { sessionLookup := sampleSession, fetchOutcome := .response plainTextResponse }

/-- Claim C5 witness: the 400 duplicate-review body surfaces exactly its
message field and the 500 plain-text body surfaces exactly its raw text. -/
theorem server_rejected_message_rule_witness :
    (duplicateEnv.fetchOutcome = FetchOutcome.response duplicateResponse
      ∧ duplicateResponse.ok = false)
    ∧ (handleSubmit sampleRef sampleDraft duplicateEnv).outcome =
        SubmitOutcome.serverRejected (serverErrorMessage duplicateResponse)
    ∧ serverErrorMessage duplicateResponse = ("Duplicate review")
    ∧ (handleSubmit sampleRef sampleDraft plainTextEnv).outcome =
        SubmitOutcome.serverRejected (serverErrorMessage plainTextResponse)
    ∧ serverErrorMessage plainTextResponse = ("Internal error") :=
  ⟨⟨rfl, rfl⟩,
    (server_rejected_message_rule sampleRef sampleDraft duplicateEnv duplicateResponse
      rfl rfl (by decide) (by decide) rfl (by decide)).1,
    (server_rejected_message_rule sampleRef sampleDraft duplicateEnv duplicateResponse
      rfl rfl (by decide) (by decide) rfl (by decide)).2.1
      ("Duplicate review") rfl (by decide),
    (server_rejected_message_rule sampleRef sampleDraft plainTextEnv plainTextResponse
      rfl rfl (by decide) (by decide) rfl (by decide)).1,
    (server_rejected_message_rule sampleRef sampleDraft plainTextEnv plainTextResponse
      rfl rfl (by decide) (by decide) rfl (by decide)).2.2.1
      rfl (by decide)⟩

/-- Claim C6: a submission that does not end in success leaves the draft
intact: the final dishes list and rating are exactly the ones held at
invocation; no failure path clears or modifies them. -/
theorem submit_failure_preserves_draft
    (ref : RestaurantRef) (st : DraftState) (env : SubmitEnv)
    (_hfail : (handleSubmit ref st env).outcome ≠ SubmitOutcome.success) :
    (handleSubmit ref st env).state.dishes = st.dishes
    ∧ (handleSubmit ref st env).state.rating = st.rating := by
  unfold handleSubmit
  dsimp only
  repeat' split
  all_goals exact ⟨rfl, rfl⟩

/-- Claim C6 witness: the concrete no-session failure keeps the draft intact. -/
theorem submit_failure_preserves_draft_witness :
    (handleSubmit sampleRef sampleDraft noSessionEnv).outcome ≠ SubmitOutcome.success
    ∧ ((handleSubmit sampleRef sampleDraft noSessionEnv).state.dishes = sampleDraft.dishes
      ∧ (handleSubmit sampleRef sampleDraft noSessionEnv).state.rating = sampleDraft.rating) :=
  ⟨by decide, submit_failure_preserves_draft sampleRef sampleDraft noSessionEnv (by decide)⟩

/-- Sample ok response whose body is not valid JSON, so `response.json()`
throws after a 2xx status. -/
def badJsonOkResponse : HttpResponse :=
  { ok := true
    status := 200
    statusText := ("OK")
    bodyText := ("not json")
    bodyJson := .failure
    jsonErrMsg := ("Unexpected token n in JSON") }

/-- Sample environment delivering the 2xx response with an unparseable body. -/
def badJsonEnv : SubmitEnv :=
  { sessionLookup := sampleSession, fetchOutcome := .response badJsonOkResponse }

/-- Claim C7 counterexample: a run that receives a 2xx response whose body is
not valid JSON issues no go-back signal, so a 2xx status alone does not imply
exactly one go-back signal. -/
theorem submit_go_back_counterexample :
    badJsonEnv.fetchOutcome = FetchOutcome.response badJsonOkResponse
    ∧ badJsonOkResponse.ok = true
    ∧ (handleSubmit sampleRef sampleDraft badJsonEnv).goBackSignals = 0
    ∧ (handleSubmit sampleRef sampleDraft badJsonEnv).goBackSignals ≠ 1 :=
  ⟨rfl, rfl, rfl, by decide⟩

/-- Claim C7 (amended): when submit is invoked from the non-submitting state,
isSubmitting is false after it completes on every exit path; and a run that
reaches the POST and receives a 2xx response whose body parses as JSON issues
exactly one go-back signal. -/
theorem submit_clears_is_submitting_single_go_back
    (ref : RestaurantRef) (st : DraftState) (env : SubmitEnv)
    (hstart : st.isSubmitting = false) :
    (handleSubmit ref st env).state.isSubmitting = false
    ∧ (∀ r m, env.fetchOutcome = FetchOutcome.response r → r.ok = true →
        r.bodyJson = JsonParseResult.success m →
        filledDishes st.dishes ≠ [] → st.rating ≠ 0 →
        env.sessionLookup.error = false → env.sessionLookup.session ≠ none →
        (handleSubmit ref st env).goBackSignals = 1) := by
  constructor
  · unfold handleSubmit
    dsimp only
    repeat' split
    all_goals first
      | exact hstart
      | rfl
  · intro r m hres hok hjson hdne hrne herr hsess
    have hlen : ¬(filledDishes st.dishes).length = 0 := by
      simpa [List.length_eq_zero] using hdne
    have hbool : ¬(env.sessionLookup.error || env.sessionLookup.session.isNone) = true := by
      simp [herr, Option.isNone_iff_eq_none, hsess]
    unfold handleSubmit
    dsimp only
    rw [if_neg hlen, if_neg hrne, if_neg hbool, hres]
    dsimp only
    rw [if_pos hok, hjson]

/-- Claim C7 witness: a concrete full success run clears isSubmitting and
issues exactly one go-back signal. -/
theorem submit_clears_is_submitting_single_go_back_witness :
    sampleDraft.isSubmitting = false
    ∧ (handleSubmit sampleRef sampleDraft successEnv).state.isSubmitting = false
    ∧ (handleSubmit sampleRef sampleDraft successEnv).goBackSignals = 1 :=
  ⟨rfl,
    (submit_clears_is_submitting_single_go_back sampleRef sampleDraft successEnv rfl).1,
    (submit_clears_is_submitting_single_go_back sampleRef sampleDraft successEnv rfl).2
      okJsonResponse none rfl rfl rfl (by decide) (by decide) rfl (by decide)⟩

/-- Claim C10: a 2xx response whose body is not valid JSON makes submit end in
failure: the thrown parse error is caught, an Error alert with its message is
surfaced, no go-back signal is issued, and the run does not end in success. -/
theorem submit_success_status_bad_body_fails
    (ref : RestaurantRef) (st : DraftState) (env : SubmitEnv) (r : HttpResponse)
    (hres : env.fetchOutcome = FetchOutcome.response r) (hok : r.ok = true)
    (hjson : r.bodyJson = JsonParseResult.failure)
    (hdne : filledDishes st.dishes ≠ []) (hrne : st.rating ≠ 0)
    (herr : env.sessionLookup.error = false) (hsess : env.sessionLookup.session ≠ none) :
    (handleSubmit ref st env).outcome = SubmitOutcome.transportFailure r.jsonErrMsg
    ∧ (handleSubmit ref st env).outcome ≠ SubmitOutcome.success
    ∧ (handleSubmit ref st env).alerts = [⟨("Error"), r.jsonErrMsg⟩]
    ∧ (handleSubmit ref st env).goBackSignals = 0 := by
  have hlen : ¬(filledDishes st.dishes).length = 0 := by
    simpa [List.length_eq_zero] using hdne
  have hbool : ¬(env.sessionLookup.error || env.sessionLookup.session.isNone) = true := by
    simp [herr, Option.isNone_iff_eq_none, hsess]
  have hred : handleSubmit ref st env =
      { state := { st with isSubmitting := false }
        alerts := [⟨("Error"), r.jsonErrMsg⟩]
        sessionLookups := 1
        postedPayload := some
          { provider := ref.provider
            providerId := ref.providerId
            name := ref.name
            address := ref.address
            lat := ref.lat
            lng := ref.lng
            rating := st.rating
            text := ("")
            dishes := filledDishes st.dishes }
        goBackSignals := 0
        outcome := .transportFailure r.jsonErrMsg } := by
    unfold handleSubmit
    dsimp only
    rw [if_neg hlen, if_neg hrne, if_neg hbool, hres]
    dsimp only
    rw [if_pos hok, hjson]
  rw [hred]
  exact ⟨rfl, by simp, rfl, rfl⟩

/-- Claim C10 witness: the concrete 2xx run with an unparseable body ends in
failure with an Error alert and no go-back signal. -/
theorem submit_success_status_bad_body_fails_witness :
    (badJsonEnv.fetchOutcome = FetchOutcome.response badJsonOkResponse
      ∧ badJsonOkResponse.ok = true
      ∧ badJsonOkResponse.bodyJson = JsonParseResult.failure)
    ∧ ((handleSubmit sampleRef sampleDraft badJsonEnv).outcome =
        SubmitOutcome.transportFailure badJsonOkResponse.jsonErrMsg
      ∧ (handleSubmit sampleRef sampleDraft badJsonEnv).outcome ≠ SubmitOutcome.success
      ∧ (handleSubmit sampleRef sampleDraft badJsonEnv).alerts =
          [⟨("Error"), badJsonOkResponse.jsonErrMsg⟩]
      ∧ (handleSubmit sampleRef sampleDraft badJsonEnv).goBackSignals = 0) :=
  ⟨⟨rfl, rfl, rfl⟩,
    submit_success_status_bad_body_fails sampleRef sampleDraft badJsonEnv badJsonOkResponse
      rfl rfl rfl (by decide) (by decide) rfl (by decide)⟩

/-- Classifies a feed fetch outcome as failed: thrown transport error or a
response with a non-success status. -/
def feedFetchFailed : FeedFetchOutcome → Bool
  | .transportError _ => true
  | .response ok _ => !ok

/-- Claim C8: a failed feed load, initial or refresh, leaves the held review
list unchanged and surfaces no error to the user; and on every load, whatever
the outcome, both the loading and the refreshing flag end up cleared. -/
theorem feed_failure_silent_keeps_list_clears_flags
    (st : FeedState) (env : FeedEnv)
    (hfail : feedFetchFailed env.fetch = true) :
    ((fetchFriendsReviews st env).state.reviews = st.reviews
      ∧ (fetchFriendsReviews st env).surfacedAlerts = [])
    ∧ ((onRefresh st env).state.reviews = st.reviews
      ∧ (onRefresh st env).surfacedAlerts = [])
    ∧ (∀ st2 env2, (fetchFriendsReviews st2 env2).state.loading = false
      ∧ (fetchFriendsReviews st2 env2).state.refreshing = false
      ∧ (onRefresh st2 env2).state.loading = false
      ∧ (onRefresh st2 env2).state.refreshing = false) := by
  refine ⟨?_, ?_, ?_⟩
  · unfold fetchFriendsReviews
    cases henv : env.fetch with
    | transportError msg => exact ⟨rfl, rfl⟩
    | response ok bodyJson =>
      unfold feedFetchFailed at hfail
      rw [henv] at hfail
      cases ok with
      | true => cases hfail
      | false => exact ⟨rfl, rfl⟩
  · unfold onRefresh fetchFriendsReviews
    cases henv : env.fetch with
    | transportError msg => exact ⟨rfl, rfl⟩
    | response ok bodyJson =>
      unfold feedFetchFailed at hfail
      rw [henv] at hfail
      cases ok with
      | true => cases hfail
      | false => exact ⟨rfl, rfl⟩
  · intro st2 env2
    unfold onRefresh fetchFriendsReviews
    cases env2.fetch with
    | transportError msg => exact ⟨rfl, rfl, rfl, rfl⟩
    | response ok bodyJson =>
      cases ok with
      | true =>
        cases bodyJson with
        | some feedData => exact ⟨rfl, rfl, rfl, rfl⟩
        | none => exact ⟨rfl, rfl, rfl, rfl⟩
      | false => exact ⟨rfl, rfl, rfl, rfl⟩

/-- Sample feed review record. -/
def sampleReview : Review :=
  { id := ("rev1")
    userId := ("u1")
    userName := ("Alex")
    userAvatar := none
    restaurantId := ("rst1")
    restaurantName := ("Chez Test")
    restaurantAddress := ("1 Main St")
    rating := 5
    text := ("great")
    photoUrls := none
    items := some ["Fries"]
    createdAt := ("2026-01-01T00:00:00Z") }

/-- Sample feed state holding one already-rendered review, mid refresh. -/
def sampleFeedState : FeedState :=
  { reviews := [sampleReview], loading := false, refreshing := true }

/-- Sample feed environment whose GET returns a non-success status. -/
def failingFeedEnv : FeedEnv :=
  { token := none, fetch := .response false none }

/-- Claim C8 witness: a concrete failed refresh keeps the single rendered
review, surfaces nothing and clears both flags. -/
theorem feed_failure_silent_keeps_list_clears_flags_witness :
    feedFetchFailed failingFeedEnv.fetch = true
    ∧ (((fetchFriendsReviews sampleFeedState failingFeedEnv).state.reviews =
          sampleFeedState.reviews
      ∧ (fetchFriendsReviews sampleFeedState failingFeedEnv).surfacedAlerts = [])
    ∧ ((onRefresh sampleFeedState failingFeedEnv).state.reviews = sampleFeedState.reviews
      ∧ (onRefresh sampleFeedState failingFeedEnv).surfacedAlerts = [])
    ∧ (∀ st2 env2, (fetchFriendsReviews st2 env2).state.loading = false
      ∧ (fetchFriendsReviews st2 env2).state.refreshing = false
      ∧ (onRefresh st2 env2).state.loading = false
      ∧ (onRefresh st2 env2).state.refreshing = false)) :=
  ⟨rfl, feed_failure_silent_keeps_list_clears_flags sampleFeedState failingFeedEnv rfl⟩

/-- Claim C9: the feed date label follows the ceiling rule on elapsed days:
zero elapsed time renders Today, 25 hours renders 2 days ago, a ceiling of 1
renders Yesterday, a ceiling of 2 to 6 renders the n days ago text, and a
ceiling of 7 or more, such as 10 days, renders the localized absolute date. -/
theorem format_date_ceiling_rule
    (locale : Int → String) (nowMs dateMs : Int) :
    formatDate locale nowMs nowMs = ("Today")
    ∧ formatDate locale nowMs (nowMs - 25 * 60 * 60 * 1000) = ("2 days ago")
    ∧ (diffDays nowMs dateMs = 1 → formatDate locale nowMs dateMs = ("Yesterday"))
    ∧ (∀ n, diffDays nowMs dateMs = n → 2 ≤ n → n < 7 →
        formatDate locale nowMs dateMs = toString n ++ (" days ago"))
    ∧ (7 ≤ diffDays nowMs dateMs → formatDate locale nowMs dateMs = locale dateMs)
    ∧ formatDate locale nowMs (nowMs - 10 * ((msPerDay : Nat) : Int)) =
        locale (nowMs - 10 * ((msPerDay : Nat) : Int)) := by
  refine ⟨?_, ?_, ?_, ?_, ?_, ?_⟩
  · have h : diffDays nowMs nowMs = 0 := by
      unfold diffDays
      rw [sub_self]
      rfl
    unfold formatDate
    rw [h]
    rfl
  · have h : diffDays nowMs (nowMs - 25 * 60 * 60 * 1000) = 2 := by
      unfold diffDays
      rw [sub_sub_cancel]
      rfl
    unfold formatDate
    rw [h]
    rfl
  · intro h
    unfold formatDate
    rw [h]
    rfl
  · intro n h h2 h7
    unfold formatDate
    rw [h, if_neg (by omega), if_neg (by omega), if_pos h7]
  · intro h7
    unfold formatDate
    rw [if_neg (by omega), if_neg (by omega), if_neg (by omega)]
  · have h : diffDays nowMs (nowMs - 10 * ((msPerDay : Nat) : Int)) = 10 := by
      unfold diffDays
      rw [sub_sub_cancel]
      rfl
    unfold formatDate
    rw [h]
    rfl

/-- Claim C9 witness: concrete timestamps for the Yesterday branch, the n days
ago branch and the absolute-date branch, under a concrete locale renderer. -/
theorem format_date_ceiling_rule_witness :
    diffDays 1000000000 950000000 = 1
    ∧ formatDate (fun _ => ("1/1/2026")) 1000000000 950000000 = ("Yesterday")
    ∧ diffDays 1000000000 700000000 = 4
    ∧ formatDate (fun _ => ("1/1/2026")) 1000000000 700000000 = ("4 days ago")
    ∧ 7 ≤ diffDays 1000000000 136000000
    ∧ formatDate (fun _ => ("1/1/2026")) 1000000000 136000000 = ("1/1/2026") :=
  ⟨by decide,
    (format_date_ceiling_rule (fun _ => ("1/1/2026")) 1000000000 950000000).2.2.1 (by decide),
    by decide,
    (format_date_ceiling_rule (fun _ => ("1/1/2026")) 1000000000 700000000).2.2.2.1
      4 (by decide) (by decide) (by decide),
    by decide,
    (format_date_ceiling_rule (fun _ => ("1/1/2026")) 1000000000 136000000).2.2.2.2.1
      (by decide)⟩

end FoodReview
